import Mathlib

/-!
Verification development for the url-to-pdf-api repository.

The repository has two source files:
* `src/http/pdf-http.js` — the HTTP layer: `getExistingPdfUrl` (existing-PDF
  resolver), `getRender` / `postRender` (route handlers), `getOptsFromQuery`.
* a second file holding an older copy of the HTTP layer together with the
  render core: `render` (options normalization via `lodash.merge` over a
  default record, then the puppeteer session) and `scrollPage` (the in-page
  scroll-trigger script).

Everything below is a shallow embedding of that JavaScript, translated
construct by construct.  External collaborators (the WHATWG `URL` parser,
`fetch`, puppeteer) are modelled as explicit data: the probe response is an
argument, the browser is an event trace, `new URL` is a small parser covering
the `scheme://host/path?query` fragment the code exercises.
-/

/-- Model of the JavaScript values that appear as option leaves: strings,
numbers, booleans and null.  `Option JsValue` models a possibly-absent
(`undefined`) property. -/
inductive JsValue where
  | vstr (s : String)
  | vnum (n : Int)
  | vbool (b : Bool)
  | vnull
deriving DecidableEq, Repr

/-- JavaScript truthiness of a value (used by `if (opts.emulateMedia)` and
`if (opts.scrollPage)`). -/
def truthy : JsValue → Bool
  | JsValue.vstr s => s ≠ ""
  | JsValue.vnum n => n ≠ 0
  | JsValue.vbool b => b
  | JsValue.vnull => false

/-- Truthiness of a possibly-absent property (`undefined` is falsy). -/
def truthyO : Option JsValue → Bool
  | some v => truthy v
  | none => false

/-- lodash `_.isString` on a possibly-absent value. -/
def isStringO : Option JsValue → Bool
  | some (JsValue.vstr _) => true
  | _ => false

/-- lodash `_.isNumber` on a possibly-absent value. -/
def isNumberO : Option JsValue → Bool
  | some (JsValue.vnum _) => true
  | _ => false

/-! ### Character-list string utilities

The JavaScript string operations (`match` with the anchored regexes,
`toLowerCase`, `endsWith`) are embedded over `List Char` so that every
definition reduces inside the kernel. -/

/-- Lower-case a single ASCII character (as `toLowerCase` does on ASCII). -/
def charToLower (c : Char) : Char :=
  if 'A' ≤ c && c ≤ 'Z' then Char.ofNat (c.toNat + 32) else c

/-- Whether the second list is a prefix of the first. -/
def listStartsWith : List Char → List Char → Bool
  | _, [] => true
  | [], _ :: _ => false
  | a :: as, b :: bs => a == b && listStartsWith as bs

/-- Whether `pat` is a suffix of `s` (JS regex `/pat$/` on a literal `pat`). -/
def strEndsWith (s pat : String) : Bool :=
  listStartsWith s.data.reverse pat.data.reverse

/-- Whether `pat` is a prefix of `s` (JS regex `/^pat/` on a literal `pat`). -/
def strStartsWith (s pat : String) : Bool :=
  listStartsWith s.data pat.data

/-- JS `toLowerCase` restricted to ASCII case mapping. -/
def strToLower (s : String) : String :=
  String.mk (s.data.map charToLower)

/-- Take the longest prefix satisfying `p`. -/
def takeWhileL (p : Char → Bool) : List Char → List Char
  | [] => []
  | c :: cs => if p c then c :: takeWhileL p cs else []

/-- Drop the longest prefix satisfying `p`. -/
def dropWhileL (p : Char → Bool) : List Char → List Char
  | [] => []
  | c :: cs => if p c then dropWhileL p cs else c :: cs

/-- Split at the first occurrence of the substring `pat`, returning the part
before it and the part after it; `none` when `pat` does not occur. -/
def splitOnSub (pat : List Char) : List Char → Option (List Char × List Char)
  | [] => if pat.isEmpty then some ([], []) else none
  | c :: cs =>
    if listStartsWith (c :: cs) pat then some ([], (c :: cs).drop pat.length)
    else
      match splitOnSub pat cs with
      | some (pre, post) => some (c :: pre, post)
      | none => none

/-! ### WHATWG URL model

`getExistingPdfUrl` calls `new URL(raw_url)` and reads `hostname`,
`pathname` and `search`, and rebuilds the URL with `toString()` after
assigning `pathname`.  The parser below models that collaborator for the
`scheme://host/path?query` shape the code exercises: it fails (as `new URL`
throws) when the string has no `scheme://host` part, lower-cases the scheme
and host, and splits path and query at the first `?` (fragments after `#`
are dropped). -/
structure ParsedURL where
  scheme : String
  host : String
  hostname : String
  pathname : String
  search : String
deriving DecidableEq, Repr

/-- Parse `scheme://host/path?query`; `none` models `new URL` throwing. -/
def parseURL (s : String) : Option ParsedURL :=
  match splitOnSub "://".data s.data with
  | none => none
  | some (sch, rest) =>
    if sch.isEmpty then none
    else
      let hostL := takeWhileL (fun c => c != '/' && c != '?' && c != '#') rest
      if hostL.isEmpty then none
      else
        let after := rest.drop hostL.length
        let path :=
          match after with
          | '/' :: _ => takeWhileL (fun c => c != '?' && c != '#') after
          | _ => "/".data
        let search :=
          match dropWhileL (fun c => c != '?' && c != '#') after with
          | '?' :: qs => '?' :: takeWhileL (fun c => c != '#') qs
          | _ => []
        let hostLower := hostL.map charToLower
        some { scheme := String.mk (sch.map charToLower)
               host := String.mk hostLower
               hostname := String.mk (takeWhileL (fun c => c != ':') hostLower)
               pathname := String.mk path
               search := String.mk search }

/-- Serialization used by `url.toString()` after the code assigns
`url.pathname = '/pdf'` in the openreview branch. -/
def urlToString (u : ParsedURL) : String :=
  u.scheme ++ "://" ++ u.host ++ u.pathname ++ u.search

/-- JS regex `/^\/(abs|pdf)\/(\d+\.\d+)/` applied to a pathname: the second
capture group on success.  Both `\d+` runs are greedy maximal digit runs,
which is exactly what backtracking yields for this pattern. -/
def arxivIdMatch (path : String) : Option String :=
  let tail :=
    if strStartsWith path "/abs/" then some (path.data.drop 5)
    else if strStartsWith path "/pdf/" then some (path.data.drop 5)
    else none
  match tail with
  | none => none
  | some t =>
    let d1 := takeWhileL Char.isDigit t
    if d1.isEmpty then none
    else
      match t.drop d1.length with
      | '.' :: t2 =>
        let d2 := takeWhileL Char.isDigit t2
        if d2.isEmpty then none
        else some (String.mk d1 ++ "." ++ String.mk d2)
      | _ => none

/-! ### Existing-PDF resolver (`getExistingPdfUrl` in `src/http/pdf-http.js`) -/

/-- Result of the HEAD probe collaborator (`fetch(raw_url, {method:'HEAD'})`):
either the fetch promise rejects, or a response arrives whose content-type
header may be absent (`headers.get` returns null). -/
inductive Probe where
  | netError
  | response (contentType : Option String)
deriving DecidableEq, Repr

/-- Outcome of `getExistingPdfUrl`.  The first three constructors carry the
string the function returns; `nullResult` is the `return null`;
`ctTypeError` models the TypeError thrown by `contentType.toLowerCase()`
when the header is absent; `netError` models the rejected fetch; `badUrl`
models `new URL(raw_url)` throwing. -/
inductive Resolve where
  | extension (u : String)
  | knownSite (u : String)
  | probeHit (u : String)
  | nullResult
  | ctTypeError
  | netError
  | badUrl
deriving DecidableEq, Repr

/-- The part of `getExistingPdfUrl` that runs before the HEAD request: the
`.pdf` extension test on the raw URL string, URL parsing, and the
hostname switch (arxiv.org, openreview.net).  Returns `none` exactly when
control falls through to the probe. -/
def preProbe (raw : String) : Option Resolve :=
  if strEndsWith raw ".pdf" then some (Resolve.extension raw)
  else
    match parseURL raw with
    | none => some Resolve.badUrl
    | some u =>
      if u.hostname = "arxiv.org" then
        match arxivIdMatch u.pathname with
        | some id => some (Resolve.knownSite ("https://arxiv.org/pdf/" ++ id))
        | none => none
      else if u.hostname = "openreview.net" then
        if u.pathname = "/forum" ∨ u.pathname = "/pdf" then
          some (Resolve.knownSite (urlToString { u with pathname := "/pdf" }))
        else none
      else none

/-- The probe step: `headRequest.headers.get('content-type')` followed by
`contentType.toLowerCase().endsWith('pdf')`. -/
def probeStep (p : Probe) (raw : String) : Resolve :=
  match p with
  | Probe.netError => Resolve.netError
  | Probe.response none => Resolve.ctTypeError
  | Probe.response (some ct) =>
    if strEndsWith (strToLower ct) "pdf" then Resolve.probeHit raw
    else Resolve.nullResult

/-- `getExistingPdfUrl(raw_url)` from `src/http/pdf-http.js`, with the HEAD
collaborator's answer passed in as `p`. -/
def getExistingPdfUrl (p : Probe) (raw : String) : Resolve :=
  match preProbe raw with
  | some r => r
  | none => probeStep p raw

/-! ### Options record and normalization (`render`'s `_.merge` call) -/

/-- The `viewport` group of the options record. -/
structure Viewport where
  width : Option JsValue := none
  height : Option JsValue := none
  deviceScaleFactor : Option JsValue := none
  isMobile : Option JsValue := none
  hasTouch : Option JsValue := none
  isLandscape : Option JsValue := none
deriving DecidableEq, Repr

/-- The `goto` (navigation policy) group of the options record. -/
structure GotoOpts where
  timeout : Option JsValue := none
  waitUntil : Option JsValue := none
  networkIdleInflight : Option JsValue := none
  networkIdleTimeout : Option JsValue := none
deriving DecidableEq, Repr

/-- The `pdf.margin` group of the options record. -/
structure Margin where
  top : Option JsValue := none
  right : Option JsValue := none
  bottom : Option JsValue := none
  left : Option JsValue := none
deriving DecidableEq, Repr

/-- The `pdf` (export policy) group of the options record. -/
structure PdfOpts where
  scale : Option JsValue := none
  displayHeaderFooter : Option JsValue := none
  landscape : Option JsValue := none
  pageRanges : Option JsValue := none
  format : Option JsValue := none
  width : Option JsValue := none
  height : Option JsValue := none
  margin : Option Margin := none
  printBackground : Option JsValue := none
deriving DecidableEq, Repr

/-- The options record flowing from the HTTP layer into `render`.  Leaves are
`Option`-valued: `none` models an absent / `undefined` property.  Both
property names touched by the two code paths are present: the HTTP layer
writes `emulateScreenMedia`, while the default record and the render check
use `emulateMedia`. -/
structure RenderOptions where
  url : Option JsValue := none
  html : Option JsValue := none
  attachmentName : Option JsValue := none
  scrollPage : Option JsValue := none
  emulateScreenMedia : Option JsValue := none
  emulateMedia : Option JsValue := none
  ignoreHttpsErrors : Option JsValue := none
  waitFor : Option JsValue := none
  viewport : Option Viewport := none
  goto : Option GotoOpts := none
  pdf : Option PdfOpts := none
deriving DecidableEq, Repr

/-- The options record with every property absent (the JS `{}`). -/
def emptyOptions : RenderOptions := {}

/-- lodash `_.merge` on one scalar leaf: a present source value (including
`false`, `0`, `null`) overwrites the destination; an absent (`undefined`)
source leaf keeps the destination. -/
def mergeLeaf (dst src : Option JsValue) : Option JsValue :=
  match src with
  | some v => some v
  | none => dst

/-- lodash `_.merge` on a nested group: absent source keeps the destination,
a source object merges recursively into a present destination. -/
def mergeSub {α : Type} (f : α → α → α) : Option α → Option α → Option α
  | d, none => d
  | none, some s => some s
  | some d, some s => some (f d s)

/-- Recursive merge for the `viewport` group. -/
def mergeViewport (d s : Viewport) : Viewport :=
  { width := mergeLeaf d.width s.width
    height := mergeLeaf d.height s.height
    deviceScaleFactor := mergeLeaf d.deviceScaleFactor s.deviceScaleFactor
    isMobile := mergeLeaf d.isMobile s.isMobile
    hasTouch := mergeLeaf d.hasTouch s.hasTouch
    isLandscape := mergeLeaf d.isLandscape s.isLandscape }

/-- Recursive merge for the `goto` group. -/
def mergeGoto (d s : GotoOpts) : GotoOpts :=
  { timeout := mergeLeaf d.timeout s.timeout
    waitUntil := mergeLeaf d.waitUntil s.waitUntil
    networkIdleInflight := mergeLeaf d.networkIdleInflight s.networkIdleInflight
    networkIdleTimeout := mergeLeaf d.networkIdleTimeout s.networkIdleTimeout }

/-- Recursive merge for the `pdf.margin` group. -/
def mergeMargin (d s : Margin) : Margin :=
  { top := mergeLeaf d.top s.top
    right := mergeLeaf d.right s.right
    bottom := mergeLeaf d.bottom s.bottom
    left := mergeLeaf d.left s.left }

/-- Recursive merge for the `pdf` group. -/
def mergePdf (d s : PdfOpts) : PdfOpts :=
  { scale := mergeLeaf d.scale s.scale
    displayHeaderFooter := mergeLeaf d.displayHeaderFooter s.displayHeaderFooter
    landscape := mergeLeaf d.landscape s.landscape
    pageRanges := mergeLeaf d.pageRanges s.pageRanges
    format := mergeLeaf d.format s.format
    width := mergeLeaf d.width s.width
    height := mergeLeaf d.height s.height
    margin := mergeSub mergeMargin d.margin s.margin
    printBackground := mergeLeaf d.printBackground s.printBackground }

/-- lodash `_.merge(dst, src)` on the full options record shape. -/
def mergeOptions (dst src : RenderOptions) : RenderOptions :=
  { url := mergeLeaf dst.url src.url
    html := mergeLeaf dst.html src.html
    attachmentName := mergeLeaf dst.attachmentName src.attachmentName
    scrollPage := mergeLeaf dst.scrollPage src.scrollPage
    emulateScreenMedia := mergeLeaf dst.emulateScreenMedia src.emulateScreenMedia
    emulateMedia := mergeLeaf dst.emulateMedia src.emulateMedia
    ignoreHttpsErrors := mergeLeaf dst.ignoreHttpsErrors src.ignoreHttpsErrors
    waitFor := mergeLeaf dst.waitFor src.waitFor
    viewport := mergeSub mergeViewport dst.viewport src.viewport
    goto := mergeSub mergeGoto dst.goto src.goto
    pdf := mergeSub mergePdf dst.pdf src.pdf }

/-- The default `viewport` record from `render`. -/
def defaultViewport : Viewport :=
  { width := some (JsValue.vnum 1600), height := some (JsValue.vnum 1200) }

/-- The default `goto` record from `render`. -/
def defaultGoto : GotoOpts :=
  { waitUntil := some (JsValue.vstr "networkidle")
    networkIdleTimeout := some (JsValue.vnum 2000) }

/-- The default `pdf` record from `render`. -/
def defaultPdf : PdfOpts :=
  { format := some (JsValue.vstr "A4"), printBackground := some (JsValue.vbool true) }

/-- The default record `render` merges the request options over.  Note the
property name: the default is `emulateMedia`, not `emulateScreenMedia`. -/
def defaultOptions : RenderOptions :=
  { scrollPage := some (JsValue.vbool false)
    emulateMedia := some (JsValue.vbool false)
    viewport := some defaultViewport
    goto := some defaultGoto
    pdf := some defaultPdf }

/-- The `const opts = _.merge({...defaults...}, _opts)` line of `render`. -/
def mergeDefaults (o : RenderOptions) : RenderOptions :=
  mergeOptions defaultOptions o

/-! ### Render orchestrator (`render` in the core file)

The puppeteer collaborator is modelled as a trace of invocations.  A
`FailSpec` records, per collaborator call, whether that call's promise
rejects; the translated `render` threads the trace and stops at the first
rejection.  The source has no `try`/`finally` around the session, so a
rejection propagates out of `render` without reaching `browser.close()`. -/

/-- One invocation of the puppeteer collaborator. -/
inductive BrowserEvent where
  | launch
  | newPage
  | setViewport (v : Option Viewport)
  | emulateMedia (mode : String)
  | waitFor (w : JsValue)
  | goto (url : Option JsValue) (g : Option GotoOpts)
  | evalScrollPage
  | pdf (p : Option PdfOpts)
  | close
deriving DecidableEq, Repr

/-- Which collaborator calls reject, one flag per call site in `render`. -/
structure FailSpec where
  launch : Bool := false
  newPage : Bool := false
  setViewport : Bool := false
  emulateMedia : Bool := false
  waitFor : Bool := false
  goto : Bool := false
  scrollPage : Bool := false
  pdf : Bool := false
  close : Bool := false
deriving DecidableEq, Repr

/-- The environment in which every collaborator call succeeds. -/
def noFail : FailSpec := {}

/-- The environment in which exactly the navigation (`page.goto`) rejects. -/
def gotoFail : FailSpec := { goto := true }

/-- Result of one `render` call: the collaborator invocations in order, and
whether the call returned data (`true`) or propagated a rejection. -/
structure RenderResult where
  events : List BrowserEvent
  ok : Bool
deriving DecidableEq, Repr

/-- `render(_opts)` from the core file, translated line by line: merge the
defaults, launch, `newPage`, `setViewport`, conditional `emulateMedia`
(guarded by `opts.emulateMedia`), conditional `waitFor`, `goto(opts.url,
opts.goto)` (there is no inline-HTML branch), conditional `scrollPage`,
`pdf`, then `close` — with no `try`/`finally`, so the first rejected call
ends the function before any later call, `close` included. -/
def render (env : FailSpec) (iopts : RenderOptions) : RenderResult :=
  let opts := mergeDefaults iopts
  let e1 := [BrowserEvent.launch]
  if env.launch then { events := e1, ok := false } else
  let e2 := e1 ++ [BrowserEvent.newPage]
  if env.newPage then { events := e2, ok := false } else
  let e3 := e2 ++ [BrowserEvent.setViewport opts.viewport]
  if env.setViewport then { events := e3, ok := false } else
  let e4 := if truthyO opts.emulateMedia then e3 ++ [BrowserEvent.emulateMedia "screen"] else e3
  if truthyO opts.emulateMedia && env.emulateMedia then { events := e4, ok := false } else
  let hasWaitFor := isNumberO opts.waitFor || isStringO opts.waitFor
  let e5 := if hasWaitFor then e4 ++ [BrowserEvent.waitFor (opts.waitFor.getD JsValue.vnull)] else e4
  if hasWaitFor && env.waitFor then { events := e5, ok := false } else
  let e6 := e5 ++ [BrowserEvent.goto opts.url opts.goto]
  if env.goto then { events := e6, ok := false } else
  let e7 := if truthyO opts.scrollPage then e6 ++ [BrowserEvent.evalScrollPage] else e6
  if truthyO opts.scrollPage && env.scrollPage then { events := e7, ok := false } else
  let e8 := e7 ++ [BrowserEvent.pdf opts.pdf]
  if env.pdf then { events := e8, ok := false } else
  let e9 := e8 ++ [BrowserEvent.close]
  if env.close then { events := e9, ok := false } else
  { events := e9, ok := true }

/-- Number of `close()` invocations in a trace. -/
def closeCount (l : List BrowserEvent) : Nat :=
  l.countP (fun e => e == BrowserEvent.close)

/-- Whether an event is the navigation call. -/
def isGotoEv : BrowserEvent → Bool
  | BrowserEvent.goto _ _ => true
  | _ => false

/-! ### HTTP layer (`postRender` in `src/http/pdf-http.js`) -/

/-- The query-string parameters read by `getOptsFromQuery`; each is a string
when supplied and absent otherwise. -/
structure Query where
  url : Option String := none
  attachmentName : Option String := none
  scrollPage : Option String := none
  emulateScreenMedia : Option String := none
  ignoreHttpsErrors : Option String := none
  waitFor : Option String := none
  viewportWidth : Option String := none
  viewportHeight : Option String := none
  viewportDeviceScaleFactor : Option String := none
  viewportIsMobile : Option String := none
  viewportHasTouch : Option String := none
  viewportIsLandscape : Option String := none
  gotoTimeout : Option String := none
  gotoWaitUntil : Option String := none
  gotoNetworkIdleInflight : Option String := none
  gotoNetworkIdleTimeout : Option String := none
  pdfScale : Option String := none
  pdfDisplayHeaderFooter : Option String := none
  pdfLandscape : Option String := none
  pdfPageRanges : Option String := none
  pdfFormat : Option String := none
  pdfWidth : Option String := none
  pdfHeight : Option String := none
  pdfMarginTop : Option String := none
  pdfMarginRight : Option String := none
  pdfMarginBottom : Option String := none
  pdfMarginLeft : Option String := none
  pdfPrintBackground : Option String := none
deriving DecidableEq, Repr

/-- The query object with no parameters. -/
def emptyQuery : Query := {}

/-- A query parameter as an option leaf: a string when supplied, absent
otherwise (query-string values are always strings in express). -/
def qv : Option String → Option JsValue
  | some s => some (JsValue.vstr s)
  | none => none

/-- `getOptsFromQuery(query)`: builds the nested options record from the flat
dotted query keys.  The nested groups are always constructed; absent query
parameters stay absent leaves.  No `emulateMedia` and no `html` key is
produced. -/
def getOptsFromQuery (q : Query) : RenderOptions :=
  { url := qv q.url
    attachmentName := qv q.attachmentName
    scrollPage := qv q.scrollPage
    emulateScreenMedia := qv q.emulateScreenMedia
    ignoreHttpsErrors := qv q.ignoreHttpsErrors
    waitFor := qv q.waitFor
    viewport := some
      { width := qv q.viewportWidth
        height := qv q.viewportHeight
        deviceScaleFactor := qv q.viewportDeviceScaleFactor
        isMobile := qv q.viewportIsMobile
        hasTouch := qv q.viewportHasTouch
        isLandscape := qv q.viewportIsLandscape }
    goto := some
      { timeout := qv q.gotoTimeout
        waitUntil := qv q.gotoWaitUntil
        networkIdleInflight := qv q.gotoNetworkIdleInflight
        networkIdleTimeout := qv q.gotoNetworkIdleTimeout }
    pdf := some
      { scale := qv q.pdfScale
        displayHeaderFooter := qv q.pdfDisplayHeaderFooter
        landscape := qv q.pdfLandscape
        pageRanges := qv q.pdfPageRanges
        format := qv q.pdfFormat
        width := qv q.pdfWidth
        height := qv q.pdfHeight
        margin := some
          { top := qv q.pdfMarginTop
            right := qv q.pdfMarginRight
            bottom := qv q.pdfMarginBottom
            left := qv q.pdfMarginLeft }
        printBackground := qv q.pdfPrintBackground } }

/-- Observable outcome of one `postRender` request, up to and including the
decision of whether `pdfCore.render` is invoked. -/
inductive PostOutcome where
  | badRequest (msg : String)
  | matchTypeError
  | urlInvalid
  | probeNetError
  | ctTypeError
  | redirect (u : String)
  | rendered (opts : RenderOptions)
deriving DecidableEq, Repr

/-- Continuation after `getExistingPdfUrl` in the route handlers: a non-null
result redirects, null falls through to `pdfCore.render(opts)`, and every
thrown error propagates out of the handler. -/
def afterResolve (opts : RenderOptions) (r : Resolve) : PostOutcome :=
  match r with
  | Resolve.extension u => PostOutcome.redirect u
  | Resolve.knownSite u => PostOutcome.redirect u
  | Resolve.probeHit u => PostOutcome.redirect u
  | Resolve.nullResult => PostOutcome.rendered opts
  | Resolve.badUrl => PostOutcome.urlInvalid
  | Resolve.netError => PostOutcome.probeNetError
  | Resolve.ctTypeError => PostOutcome.ctTypeError

/-- The `await getExistingPdfUrl(opts.url)` step of the route handlers
followed by the redirect-or-render continuation.  `opts.url` may be absent
or a non-string value, in which case `raw_url.match(...)` — the first
statement of the resolver — throws a TypeError (`matchTypeError`). -/
def resolveStep (opts : RenderOptions) (p : Probe) : PostOutcome :=
  match opts.url with
  | some (JsValue.vstr s) => afterResolve opts (getExistingPdfUrl p s)
  | _ => PostOutcome.matchTypeError

/-- `postRender` from `src/http/pdf-http.js`: the strict
`content-type === 'application/json'` test, the two 400 validations, the
choice of options object (JSON body verbatim, or query options with the raw
body as `html`), then the resolver step on `opts.url`. -/
def postRender (contentType : String) (body : RenderOptions) (rawBody : String)
    (q : Query) (p : Probe) : PostOutcome :=
  let isBodyJson := contentType == "application/json"
  if isBodyJson && !(isStringO body.url || isStringO body.html) then
    PostOutcome.badRequest "Body must contain url or html"
  else if !isBodyJson && q.url.isSome then
    PostOutcome.badRequest "url query parameter is not allowed when body is HTML"
  else
    let opts := if isBodyJson then body
      else { getOptsFromQuery q with html := some (JsValue.vstr rawBody) }
    resolveStep opts p

/-! ### Scroll-trigger sub-protocol (`scrollPage` in the core file)

The in-page script is a timer loop over the page state: starting at scroll
position 0, each step runs `window.scrollBy(0, innerHeight - 400)` and then
tests `document.body.scrollHeight - (pageYOffset + innerHeight) < 400`; on
success it runs `scrollTo(0, 0)` and schedules `resolve` 500ms later, else
it schedules the next step 200ms later.  A `reject` timer is armed at
30000ms before the first step.  Step `n` therefore runs at time `200*n`,
and a resolve triggered at step `n` fires at `200*n + 500` — it wins the
race against the reject only when `200*n + 500 < 30000`, i.e. `n ≤ 147`.
The page is modelled by its fixed viewport height and document scroll
height; `scrollBy` clamps the position into `[0, scrollHeight -
innerHeight]` as the browser does. -/

/-- The page state the script reads: `window.innerHeight` and
`document.body.scrollHeight`. -/
structure ScrollEnv where
  innerHeight : Nat
  scrollHeight : Nat
deriving DecidableEq, Repr

/-- `scrollStep = window.innerHeight - 400` (JS number, may be negative). -/
def scrollStepOf (e : ScrollEnv) : Int :=
  (e.innerHeight : Int) - 400

/-- The greatest reachable `pageYOffset`: `scrollHeight - innerHeight`,
clamped at 0 for documents shorter than the viewport. -/
def maxScrollY (e : ScrollEnv) : Nat :=
  e.scrollHeight - e.innerHeight

/-- Effect of `window.scrollBy(0, scrollStep)` on `pageYOffset`. -/
def scrollByStep (e : ScrollEnv) (y : Nat) : Nat :=
  min (max ((y : Int) + scrollStepOf e) 0).toNat (maxScrollY e)

/-- `bottomPos() = window.pageYOffset + window.innerHeight`. -/
def bottomPos (e : ScrollEnv) (y : Nat) : Nat :=
  y + e.innerHeight

/-- The stop test `document.body.scrollHeight - bottomPos() < 400`. -/
def stopCond (e : ScrollEnv) (y : Nat) : Bool :=
  (e.scrollHeight : Int) - (bottomPos e y : Int) < 400

/-- `pageYOffset` before step `n` (position 0 before step 0, then one
`scrollBy` per completed step). -/
def posB (e : ScrollEnv) : Nat → Nat
  | 0 => 0
  | n + 1 => scrollByStep e (posB e n)

/-- Whether the stop test succeeds at step `n` (the test runs after the
step's `scrollBy`). -/
def stopAt (e : ScrollEnv) (n : Nat) : Bool :=
  stopCond e (posB e (n + 1))

/-- The script's loop, carrying the current scroll position: returns the
index of the first stopping step among the next `fuel` steps. -/
def scrollLoop (e : ScrollEnv) : Nat → Nat → Nat → Option Nat
  | _, _, 0 => none
  | y, n, fuel + 1 =>
    let y2 := scrollByStep e y
    if stopCond e y2 then some n else scrollLoop e y2 (n + 1) fuel

/-- Index of the first stopping step below `fuel`, if any. -/
def findStop (e : ScrollEnv) (fuel : Nat) : Option Nat :=
  scrollLoop e 0 0 fuel

/-- Outcome of the `scrollPage` promise: `resolved finalY t` (the scroll
position after `scrollTo(0, 0)` and the time `resolve` fired) or
`rejected t` (the time the reject timer fired). -/
inductive ScrollOutcome where
  | resolved (finalY : Nat) (t : Nat)
  | rejected (t : Nat)
deriving DecidableEq, Repr

/-- `scrollPage(page)`: the promise resolves only when some step stops and
its `resolve` (scheduled 500ms after the stopping step at `200*n`) beats
the 30000ms reject timer, which requires `n ≤ 147`; searching the first
148 steps is therefore exhaustive for the outcome — a first stop at step
148 or later schedules `resolve` at `200*n + 500 ≥ 30100`, after the
reject has already settled the promise. -/
def scrollPage (e : ScrollEnv) : ScrollOutcome :=
  match findStop e 148 with
  | some n => ScrollOutcome.resolved 0 (200 * n + 500)
  | none => ScrollOutcome.rejected 30000

/-- A document whose stop condition is reached immediately. -/
def scrollEnvQuick : ScrollEnv := { innerHeight := 1600, scrollHeight := 2000 }

/-- A document whose stop condition is first reached at step 148 — late
enough that the reject timer wins the race. -/
def scrollEnvLate : ScrollEnv := { innerHeight := 500, scrollHeight := 15700 }

/-- A document on which the stop condition never holds: the viewport is
400px high, so `scrollStep = 0` and the position stays at 0 forever while
`scrollHeight - bottomPos = 600 ≥ 400`. -/
def scrollEnvStuck : ScrollEnv := { innerHeight := 400, scrollHeight := 1000 }

/-! ### Concrete inputs used by the claim theorems -/

/-- Options with `emulateScreenMedia` supplied as `true` (the JSON-body
spelling of the documented flag) and nothing else. -/
def optsESM : RenderOptions := { emulateScreenMedia := some (JsValue.vbool true) }

/-- Options with `emulateMedia` supplied as `true` and nothing else. -/
def optsEM : RenderOptions := { emulateMedia := some (JsValue.vbool true) }

/-- Options with inline `html` supplied and no `url` — the shape produced
for a raw-HTML `POST /render` body. -/
def optsHtml : RenderOptions := { html := some (JsValue.vstr "<h1>hi</h1>") }

/-- A JSON body containing only a string `html` field. -/
def bodyHtmlOnly : RenderOptions := { html := some (JsValue.vstr "<p>x</p>") }

/-! ## Helper lemmas -/

/-- Merging a leaf over a present default yields the supplied value when
present and the default otherwise. -/
theorem mergeLeaf_some (d : JsValue) (s : Option JsValue) :
    mergeLeaf (some d) s = some (s.getD d) := by
  cases s <;> rfl

/-- Merging a leaf with no default is the identity on the supplied leaf. -/
theorem mergeLeaf_none (s : Option JsValue) : mergeLeaf none s = s := by
  cases s <;> rfl

/-- Merging a nested group into an absent default is the identity. -/
theorem mergeSub_none_left {α : Type} (f : α → α → α) (s : Option α) :
    mergeSub f none s = s := by
  cases s <;> rfl

/-- Merging an absent nested group keeps the default. -/
theorem mergeSub_none_right {α : Type} (f : α → α → α) (d : Option α) :
    mergeSub f d none = d := by
  cases d <;> rfl

/-- Merging two present nested groups merges them recursively. -/
theorem mergeSub_some_some {α : Type} (f : α → α → α) (d s : α) :
    mergeSub f (some d) (some s) = some (f d s) := rfl

/-- The redirect-or-render continuation never produces a 400. -/
theorem afterResolve_ne_badRequest (o : RenderOptions) (r : Resolve) (msg : String) :
    afterResolve o r ≠ PostOutcome.badRequest msg := by
  cases r <;> simp [afterResolve]

/-- The resolver step never produces a 400. -/
theorem resolveStep_ne_badRequest (o : RenderOptions) (p : Probe) (msg : String) :
    resolveStep o p ≠ PostOutcome.badRequest msg := by
  rcases h : o.url with _ | v
  · simp [resolveStep, h]
  · cases v <;> simp [resolveStep, h, afterResolve_ne_badRequest]

/-- If no step among the next `fuel` steps stops, the scroll loop runs out. -/
theorem scrollLoop_eq_none (e : ScrollEnv) :
    ∀ fuel n, (∀ m, n ≤ m → m < n + fuel → stopAt e m = false) →
      scrollLoop e (posB e n) n fuel = none
  | 0, _, _ => rfl
  | fuel + 1, n, h => by
    have h0 : stopAt e n = false := h n (le_refl n) (by omega)
    have hrec := scrollLoop_eq_none e fuel (n + 1)
      (fun m hm1 hm2 => h m (by omega) (by omega))
    show (if stopCond e (scrollByStep e (posB e n)) then some n
      else scrollLoop e (scrollByStep e (posB e n)) (n + 1) fuel) = none
    rw [show stopCond e (scrollByStep e (posB e n)) = false from h0]
    simpa using hrec

/-- The scroll loop returns the first stopping step when it lies in range. -/
theorem scrollLoop_eq_some (e : ScrollEnv) :
    ∀ fuel n k, n ≤ k → k < n + fuel → stopAt e k = true →
      (∀ m, n ≤ m → m < k → stopAt e m = false) →
      scrollLoop e (posB e n) n fuel = some k
  | 0, _, k, h1, h2, _, _ => absurd h2 (by omega)
  | fuel + 1, n, k, h1, h2, h3, h4 => by
    show (if stopCond e (scrollByStep e (posB e n)) then some n
      else scrollLoop e (scrollByStep e (posB e n)) (n + 1) fuel) = some k
    by_cases hn : stopAt e n = true
    · have hnk : n = k := by
        rcases Nat.lt_or_ge n k with hlt | hge
        · rw [h4 n (le_refl n) hlt] at hn; exact absurd hn (by simp)
        · omega
      rw [show stopCond e (scrollByStep e (posB e n)) = true from hn]
      simp [hnk]
    · have hn' : stopAt e n = false := by
        cases hb : stopAt e n
        · rfl
        · exact absurd hb hn
      have hkn : n < k := by
        rcases Nat.lt_or_ge n k with hlt | hge
        · exact hlt
        · have hek : n = k := by omega
          rw [hek] at hn'; rw [hn'] at h3; exact absurd h3 (by simp)
      rw [show stopCond e (scrollByStep e (posB e n)) = false from hn']
      simpa using scrollLoop_eq_some e fuel (n + 1) k (by omega) (by omega) h3
        (fun m hm1 hm2 => h4 m (by omega) hm2)

/-- `findStop` finds the first stopping step when it lies below 148. -/
theorem findStop_eq_some (e : ScrollEnv) (k : Nat) (hk : stopAt e k = true)
    (hmin : ∀ m, m < k → stopAt e m = false) (hlt : k < 148) :
    findStop e 148 = some k :=
  scrollLoop_eq_some e 148 0 k (Nat.zero_le k) (by omega) hk
    (fun m _ hm => hmin m hm)

/-- `findStop` runs out when no step below 148 stops. -/
theorem findStop_eq_none (e : ScrollEnv)
    (h : ∀ m, m < 148 → stopAt e m = false) : findStop e 148 = none :=
  scrollLoop_eq_none e 148 0 (fun m _ hm => h m (by omega))

/-- Closed form of the scroll position on the late-stopping document:
`scrollStep = 100` and the position clamps at 15200. -/
theorem posB_late (n : Nat) :
    posB scrollEnvLate n = min (100 * n) 15200 := by
  induction n with
  | zero => simp [posB]
  | succ n ih =>
    show scrollByStep scrollEnvLate (posB scrollEnvLate n) = _
    rw [ih]
    simp only [scrollByStep, scrollStepOf, maxScrollY, scrollEnvLate]
    omega

/-- On the late-stopping document the stop test first succeeds at step 148. -/
theorem stopAt_late_iff (n : Nat) :
    stopAt scrollEnvLate n = true ↔ 148 ≤ n := by
  have hp := posB_late (n + 1)
  simp only [stopAt, stopCond, bottomPos, decide_eq_true_eq]
  rw [hp]
  simp only [scrollEnvLate]
  omega

/-! ## Claim theorems -/

/-- C1: the claim says `browser.close()` runs exactly once per render call,
on success and on failure of any of steps 2-7.  Evaluating the translated
`render`: on the all-success path `close` is invoked exactly once, but when
the navigation step (`page.goto`) rejects, the rejection propagates out of
`render` — which has no protection around the session — and `close` is
never invoked, so the teardown count is 0, not 1. -/
theorem c1_teardown_eval :
    closeCount (render noFail emptyOptions).events = 1 ∧
    (render noFail emptyOptions).ok = true ∧
    closeCount (render gotoFail emptyOptions).events = 0 ∧
    (render gotoFail emptyOptions).ok = false := by decide

/-- C2: the claim says `render` loads `html` as inline content when it is
set.  Evaluating the translated `render` on options whose only field is
`html`: the trace still contains the navigation call `goto(opts.url,
opts.goto)` with `opts.url` absent (`undefined`), and no inline-content
call exists anywhere in `render` — the `html` field is ignored. -/
theorem c2_html_ignored_eval :
    optsHtml.html = some (JsValue.vstr "<h1>hi</h1>") ∧
    (mergeDefaults optsHtml).url = none ∧
    BrowserEvent.goto none (some defaultGoto) ∈ (render noFail optsHtml).events ∧
    (render noFail optsHtml).ok = true := by decide

/-- C4 counterexample: on the empty options object the claim requires the
normalizer to fill `emulateScreenMedia` with `false`, but the merged record
leaves `emulateScreenMedia` absent — the default record spells the flag
`emulateMedia`, which is the leaf that receives `false`. -/
theorem c4_counterexample :
    ¬ ((mergeDefaults emptyOptions).emulateScreenMedia = some (JsValue.vbool false)) ∧
    (mergeDefaults emptyOptions).emulateMedia = some (JsValue.vbool false) := by decide

/-- C4 (amended): normalization fills each absent leaf with the documented
default — with `emulateMedia = false` in place of the claimed
`emulateScreenMedia = false`, which the normalizer passes through
untouched — and preserves every explicitly supplied leaf verbatim
(including `false` and `0`), merging recursively per nested group:
every leaf of the merged record is characterized below. -/
theorem c4_amended (o : RenderOptions) :
    (mergeDefaults o).url = o.url ∧
    (mergeDefaults o).html = o.html ∧
    (mergeDefaults o).attachmentName = o.attachmentName ∧
    (mergeDefaults o).scrollPage = some (o.scrollPage.getD (JsValue.vbool false)) ∧
    (mergeDefaults o).emulateScreenMedia = o.emulateScreenMedia ∧
    (mergeDefaults o).emulateMedia = some (o.emulateMedia.getD (JsValue.vbool false)) ∧
    (mergeDefaults o).ignoreHttpsErrors = o.ignoreHttpsErrors ∧
    (mergeDefaults o).waitFor = o.waitFor ∧
    (mergeDefaults o).viewport = some
      { width := some ((o.viewport.bind Viewport.width).getD (JsValue.vnum 1600))
        height := some ((o.viewport.bind Viewport.height).getD (JsValue.vnum 1200))
        deviceScaleFactor := o.viewport.bind Viewport.deviceScaleFactor
        isMobile := o.viewport.bind Viewport.isMobile
        hasTouch := o.viewport.bind Viewport.hasTouch
        isLandscape := o.viewport.bind Viewport.isLandscape } ∧
    (mergeDefaults o).goto = some
      { timeout := o.goto.bind GotoOpts.timeout
        waitUntil := some ((o.goto.bind GotoOpts.waitUntil).getD (JsValue.vstr "networkidle"))
        networkIdleInflight := o.goto.bind GotoOpts.networkIdleInflight
        networkIdleTimeout := some ((o.goto.bind GotoOpts.networkIdleTimeout).getD (JsValue.vnum 2000)) } ∧
    (mergeDefaults o).pdf = some
      { scale := o.pdf.bind PdfOpts.scale
        displayHeaderFooter := o.pdf.bind PdfOpts.displayHeaderFooter
        landscape := o.pdf.bind PdfOpts.landscape
        pageRanges := o.pdf.bind PdfOpts.pageRanges
        format := some ((o.pdf.bind PdfOpts.format).getD (JsValue.vstr "A4"))
        width := o.pdf.bind PdfOpts.width
        height := o.pdf.bind PdfOpts.height
        margin := o.pdf.bind PdfOpts.margin
        printBackground := some ((o.pdf.bind PdfOpts.printBackground).getD (JsValue.vbool true)) } := by
  rcases o with ⟨url, html, att, sp, esm, em, ihe, wf, vp, gt, pd⟩
  rcases vp with _ | vp <;> rcases gt with _ | gt <;> rcases pd with _ | pd <;>
    simp [mergeDefaults, mergeOptions, mergeViewport, mergeGoto, mergePdf,
      mergeLeaf_some, mergeLeaf_none, mergeSub_none_left, mergeSub_none_right,
      mergeSub_some_some, defaultOptions, defaultViewport, defaultGoto, defaultPdf]

/-- C5 counterexample: on the 500px-viewport, 15700px document the stop
condition is eventually reached (first at step 148), so the claim requires
the sub-protocol to complete successfully — but the `resolve` scheduled at
`200*148 + 500 = 30100`ms loses the race against the 30000ms reject timer
and the protocol fails at the ceiling instead. -/
theorem c5_counterexample :
    (∃ n, stopAt scrollEnvLate n = true) ∧
    scrollPage scrollEnvLate = ScrollOutcome.rejected 30000 := by
  constructor
  · exact ⟨148, (stopAt_late_iff 148).mpr (le_refl 148)⟩
  · have hnone : findStop scrollEnvLate 148 = none :=
      findStop_eq_none scrollEnvLate (fun m hm => by
        cases hb : stopAt scrollEnvLate m
        · rfl
        · have := (stopAt_late_iff m).mp hb
          omega)
    simp [scrollPage, hnone]

/-- C5 (amended): if the stop condition is first reached at step `n` and the
`resolve` scheduled at `200*n + 500`ms beats the 30000ms ceiling (i.e.
`n ≤ 147`), the sub-protocol resets the scroll position to 0 and resolves
at `200*n + 500`; if the first stop happens only at `200*n + 500 ≥
30000` — or the stop condition is never reached — the protocol fails when
the 30000ms ceiling elapses. -/
theorem c5_amended (e : ScrollEnv) :
    (∀ n, stopAt e n = true → (∀ m, m < n → stopAt e m = false) →
      (200 * n + 500 < 30000 →
        scrollPage e = ScrollOutcome.resolved 0 (200 * n + 500)) ∧
      (30000 ≤ 200 * n + 500 →
        scrollPage e = ScrollOutcome.rejected 30000)) ∧
    ((∀ n, stopAt e n = false) → scrollPage e = ScrollOutcome.rejected 30000) := by
  constructor
  · intro n hstop hmin
    constructor
    · intro ht
      have hn : n < 148 := by omega
      have hfind := findStop_eq_some e n hstop hmin hn
      simp [scrollPage, hfind]
    · intro ht
      have hfind : findStop e 148 = none :=
        findStop_eq_none e (fun m hm => hmin m (by omega))
      simp [scrollPage, hfind]
  · intro h
    have hfind : findStop e 148 = none := findStop_eq_none e (fun m _ => h m)
    simp [scrollPage, hfind]

/-- C5 witness: on a 1600px-viewport, 2000px document the stop condition
holds at the very first step, and the protocol resolves at 500ms with the
scroll position reset to 0. -/
theorem c5_witness : scrollPage scrollEnvQuick = ScrollOutcome.resolved 0 500 := by
  have h := ((c5_amended scrollEnvQuick).1 0 (by decide)
    (fun m hm => absurd hm (Nat.not_lt_zero m))).1 (by omega)
  simpa using h

/-- C6 counterexample: the URL `https://example.com/doc.pdf?x=1` has a path
ending in `.pdf`, so the claim requires the resolver to return it unchanged
with no network call — but the code tests `/\.pdf$/` against the whole URL
string, which here ends in `?x=1`, so the resolver falls through to the
HEAD probe: with a `text/html` probe answer it returns null, and with an
`application/pdf` answer it returns the URL via the probe, proving the
probe is consulted. -/
theorem c6_counterexample :
    (parseURL "https://example.com/doc.pdf?x=1").map ParsedURL.pathname = some "/doc.pdf" ∧
    strEndsWith "/doc.pdf" ".pdf" = true ∧
    getExistingPdfUrl (Probe.response (some "text/html")) "https://example.com/doc.pdf?x=1" =
      Resolve.nullResult ∧
    getExistingPdfUrl (Probe.response (some "application/pdf")) "https://example.com/doc.pdf?x=1" =
      Resolve.probeHit "https://example.com/doc.pdf?x=1" := by decide

/-- C6 (amended): for every URL string that ends with `.pdf` — the suffix
test runs on the full URL string, query included, not on the path — the
resolver returns the URL unchanged through the extension branch, for every
possible probe answer (so the probe is never consulted). -/
theorem c6_amended (u : String) (p : Probe) (h : strEndsWith u ".pdf" = true) :
    getExistingPdfUrl p u = Resolve.extension u := by
  simp [getExistingPdfUrl, preProbe, h]

/-- C6 witness: `https://example.com/doc.pdf` short-circuits on the
extension even when the probe would have answered `text/html`. -/
theorem c6_witness :
    getExistingPdfUrl (Probe.response (some "text/html")) "https://example.com/doc.pdf" =
      Resolve.extension "https://example.com/doc.pdf" :=
  c6_amended "https://example.com/doc.pdf" (Probe.response (some "text/html")) (by decide)

/-- C7 counterexample: `https://arxiv.org/abs/1234.5678.pdf` has host
`arxiv.org` and a path matching `/(abs|pdf)/<digits.digits>` with id
`1234.5678`, so the claim requires the resolver to return
`https://arxiv.org/pdf/1234.5678` — but the `.pdf` extension check runs
first and returns the URL unchanged, which is a different string (still an
`/abs/` page). -/
theorem c7_counterexample :
    (parseURL "https://arxiv.org/abs/1234.5678.pdf").map ParsedURL.hostname = some "arxiv.org" ∧
    arxivIdMatch "/abs/1234.5678.pdf" = some "1234.5678" ∧
    getExistingPdfUrl (Probe.response none) "https://arxiv.org/abs/1234.5678.pdf" =
      Resolve.extension "https://arxiv.org/abs/1234.5678.pdf" ∧
    "https://arxiv.org/abs/1234.5678.pdf" ≠ "https://arxiv.org/pdf/1234.5678" := by decide

/-- C7 (amended): for every URL that does not itself end in `.pdf` (so the
extension branch does not fire first), with host `arxiv.org` and a path
matching `/(abs|pdf)/<id>` for an id of the form digits-dot-digits, the
resolver returns `https://arxiv.org/pdf/<id>`, independently of the probe. -/
theorem c7_amended (u : String) (p : Probe) (pu : ParsedURL) (id : String)
    (hext : strEndsWith u ".pdf" = false)
    (hparse : parseURL u = some pu)
    (hhost : pu.hostname = "arxiv.org")
    (hid : arxivIdMatch pu.pathname = some id) :
    getExistingPdfUrl p u = Resolve.knownSite ("https://arxiv.org/pdf/" ++ id) := by
  simp [getExistingPdfUrl, preProbe, hext, hparse, hhost, hid]

/-- C7 witness: `https://arxiv.org/abs/2101.00001` resolves to
`https://arxiv.org/pdf/2101.00001`, the particular example of the claim. -/
theorem c7_witness :
    getExistingPdfUrl (Probe.response none) "https://arxiv.org/abs/2101.00001" =
      Resolve.knownSite "https://arxiv.org/pdf/2101.00001" :=
  (c7_amended "https://arxiv.org/abs/2101.00001" (Probe.response none)
      { scheme := "https", host := "arxiv.org", hostname := "arxiv.org",
        pathname := "/abs/2101.00001", search := "" }
      "2101.00001" (by decide) (by decide) rfl (by decide)).trans (by decide)

/-- C8 counterexample: on a URL that reaches the probe step, a probe
response carrying no content-type header is "another response", for which
the claim requires the resolver to return null — but
`headers.get('content-type')` is null and `contentType.toLowerCase()`
throws a TypeError, so the resolver fails instead of returning null. -/
theorem c8_counterexample :
    preProbe "https://example.com/page" = none ∧
    getExistingPdfUrl (Probe.response none) "https://example.com/page" =
      Resolve.ctTypeError ∧
    Resolve.ctTypeError ≠ Resolve.nullResult := by decide

/-- C8 (amended): whenever the resolver reaches the content-type probe, a
response whose content-type header case-insensitively ends with `pdf`
returns the URL unchanged; a response with any other content-type header
returns null; a response with no content-type header raises a TypeError
that propagates as a resolver failure; and a network failure of the probe
propagates as a resolver failure rather than being treated as null. -/
theorem c8_amended (u : String) (h : preProbe u = none) :
    (∀ ct : String, strEndsWith (strToLower ct) "pdf" = true →
      getExistingPdfUrl (Probe.response (some ct)) u = Resolve.probeHit u) ∧
    (∀ ct : String, strEndsWith (strToLower ct) "pdf" = false →
      getExistingPdfUrl (Probe.response (some ct)) u = Resolve.nullResult) ∧
    getExistingPdfUrl (Probe.response none) u = Resolve.ctTypeError ∧
    getExistingPdfUrl Probe.netError u = Resolve.netError := by
  refine ⟨fun ct hct => ?_, fun ct hct => ?_, ?_, ?_⟩ <;>
    simp [getExistingPdfUrl, h, probeStep, *]

/-- C8 witness: `https://example.com/page` reaches the probe; a
`application/PDF` header (case-insensitive match) returns the URL and a
`text/html` header returns null. -/
theorem c8_witness :
    getExistingPdfUrl (Probe.response (some "application/PDF")) "https://example.com/page" =
      Resolve.probeHit "https://example.com/page" ∧
    getExistingPdfUrl (Probe.response (some "text/html")) "https://example.com/page" =
      Resolve.nullResult :=
  ⟨(c8_amended "https://example.com/page" (by decide)).1 "application/PDF" (by decide),
   (c8_amended "https://example.com/page" (by decide)).2.1 "text/html" (by decide)⟩

/-- C3 counterexample: options supplying `emulateScreenMedia: true` — the
field name the claim (and the HTTP layer) uses — do not make `render`
switch media emulation: the check in `render` reads `opts.emulateMedia`,
whose merged default is `false`, so no `emulateMedia('screen')` call
appears in the trace at all. -/
theorem c3_counterexample :
    optsESM.emulateScreenMedia = some (JsValue.vbool true) ∧
    BrowserEvent.emulateMedia "screen" ∉ (render noFail optsESM).events := by decide

/-- C3 (amended): media emulation is controlled by the `emulateMedia` field
(defaulted to `false` by the normalizer), not by `emulateScreenMedia`,
which has no effect on the trace: when the merged `emulateMedia` is truthy
the `emulateMedia('screen')` call appears, and strictly before the
navigation call; when it is falsy the call never appears. -/
theorem c3_amended (o : RenderOptions) :
    (BrowserEvent.emulateMedia "screen" ∈
        ((render noFail o).events.takeWhile (fun e => !(isGotoEv e))) ↔
      truthyO (mergeDefaults o).emulateMedia = true) ∧
    (truthyO (mergeDefaults o).emulateMedia = false →
      BrowserEvent.emulateMedia "screen" ∉ (render noFail o).events) ∧
    (∀ v : Option JsValue,
      render noFail { o with emulateScreenMedia := v } = render noFail o) := by
  refine ⟨?_, ?_, ?_⟩
  · cases h1 : truthyO (mergeDefaults o).emulateMedia <;>
    cases h2 : (isNumberO (mergeDefaults o).waitFor || isStringO (mergeDefaults o).waitFor) <;>
    cases h3 : truthyO (mergeDefaults o).scrollPage <;>
    simp [render, noFail, h1, h2, h3, isGotoEv]
  · intro h1
    cases h2 : (isNumberO (mergeDefaults o).waitFor || isStringO (mergeDefaults o).waitFor) <;>
    cases h3 : truthyO (mergeDefaults o).scrollPage <;>
    simp [render, noFail, h1, h2, h3]
  · intro v
    cases o
    rfl

/-- C3 witness: with `emulateMedia: true` supplied the screen-media switch
is in the pre-navigation prefix of the trace, and on the empty options it
never appears. -/
theorem c3_witness :
    BrowserEvent.emulateMedia "screen" ∈
      ((render noFail optsEM).events.takeWhile (fun e => !(isGotoEv e))) ∧
    BrowserEvent.emulateMedia "screen" ∉ (render noFail emptyOptions).events :=
  ⟨(c3_amended optsEM).1.mpr (by decide),
   (c3_amended emptyOptions).2.1 (by decide)⟩

/-- C9: for a `POST /render` whose content-type is exactly
`application/json`, the handler answers 400 with "Body must contain url or
html" precisely when the JSON body has neither a string `url` nor a string
`html` field; when either string field is present this validation cannot
fire (and no later step produces a 400). -/
theorem c9_json_validation (body : RenderOptions) (rawBody : String)
    (q : Query) (p : Probe) :
    (postRender "application/json" body rawBody q p =
        PostOutcome.badRequest "Body must contain url or html") ↔
    (isStringO body.url = false ∧ isStringO body.html = false) := by
  cases hu : isStringO body.url <;> cases hh : isStringO body.html <;>
    simp [postRender, hu, hh, resolveStep_ne_badRequest]

/-- C9 witness: the empty JSON body `{}` has neither string field and is
answered with the 400 and its exact message. -/
theorem c9_witness :
    postRender "application/json" emptyOptions "" emptyQuery (Probe.response none) =
      PostOutcome.badRequest "Body must contain url or html" :=
  (c9_json_validation emptyOptions "" emptyQuery (Probe.response none)).mpr
    ⟨rfl, rfl⟩

/-- C10: an html-only request — a JSON body whose only string field is
`html` (no `url` property), or a raw-HTML body with no `url` query
parameter — passes validation, but the handler still calls
`getExistingPdfUrl(opts.url)` with `opts.url` undefined, whose first
statement `raw_url.match(...)` throws a TypeError; the request therefore
ends in that error and never reaches `pdfCore.render`. -/
theorem c10_html_only (body : RenderOptions) (rawBody : String) (q : Query)
    (p : Probe) (ct : String) :
    (body.url = none → isStringO body.html = true →
      postRender "application/json" body rawBody q p = PostOutcome.matchTypeError) ∧
    (¬(ct = "application/json") → q.url = none →
      postRender ct body rawBody q p = PostOutcome.matchTypeError) := by
  constructor
  · intro hu hh
    simp [postRender, hu, hh, resolveStep]
  · intro hct hq
    have hb : (ct == "application/json") = false := by
      simpa using hct
    simp [postRender, hb, hq, resolveStep, getOptsFromQuery, qv]

/-- C10 witness: a JSON body holding only `html` and a `text/plain` body
with an empty query both end in the resolver's TypeError. -/
theorem c10_witness :
    postRender "application/json" bodyHtmlOnly "" emptyQuery (Probe.response none) =
      PostOutcome.matchTypeError ∧
    postRender "text/plain" emptyOptions "<p>x</p>" emptyQuery (Probe.response none) =
      PostOutcome.matchTypeError :=
  ⟨(c10_html_only bodyHtmlOnly "" emptyQuery (Probe.response none) "text/plain").1
      rfl rfl,
   (c10_html_only emptyOptions "<p>x</p>" emptyQuery (Probe.response none)
      "text/plain").2 (by decide) rfl⟩
